import Mathlib

/-!
Verification of the distance-settings core of the rc-car-controller
dashboard: the Validator, Sanitizer and Auto-Corrector of
`utils/distanceValidation` (multi-field and single-field variants), the
settings type and constraint constants of `types/settings`, and the save
protocol of `hooks/useDistanceSettings`.

JavaScript numbers are shallowly embedded as the type `JSNum`: `NaN`,
the two infinities, the `undefined` value (what reading an absent object
property yields), and finite values modelled as rationals.  All the
arithmetic these functions perform on the values the theorems touch
(clamping to `[5, 300]`, adding `10`, multiplying by `1.5`) is exact in
IEEE double precision on those values, so the rational model agrees with
the JavaScript semantics there.
-/

namespace RCCar

/-- A JavaScript numeric value as the distance-settings code can observe
it: `NaN`, `Infinity`, `-Infinity`, `undefined` (read from an absent
property) or a finite number, modelled as a rational. -/
inductive JSNum where
  | nan
  | posInf
  | negInf
  | undef
  | fin (q : ℚ)
deriving DecidableEq, Repr

namespace JSNum

/-- JavaScript `a < b`: false whenever either side is `NaN` (or
`undefined`, which coerces to `NaN`). -/
def lt : JSNum → JSNum → Bool
  | fin a, fin b => decide (a < b)
  | fin _, posInf => true
  | negInf, fin _ => true
  | negInf, posInf => true
  | _, _ => false

/-- JavaScript `a <= b`: false whenever either side is `NaN`/`undefined`. -/
def le : JSNum → JSNum → Bool
  | fin a, fin b => decide (a ≤ b)
  | fin _, posInf => true
  | negInf, fin _ => true
  | negInf, posInf => true
  | negInf, negInf => true
  | posInf, posInf => true
  | _, _ => false

/-- JavaScript `a > b` (numerically `b < a`). -/
def gt (a b : JSNum) : Bool := lt b a

/-- `true` on actual numbers other than `NaN` (finite or infinite);
`false` on `NaN` and `undefined`. -/
def isNum : JSNum → Bool
  | nan => false
  | undef => false
  | _ => true

end JSNum

open JSNum

/-- JavaScript `Math.min` on two arguments: `NaN` if either argument
coerces to `NaN`, otherwise the smaller value. -/
def jsMin (a b : JSNum) : JSNum :=
  match a, b with
  | nan, _ => nan
  | undef, _ => nan
  | _, nan => nan
  | _, undef => nan
  | negInf, _ => negInf
  | _, negInf => negInf
  | posInf, x => x
  | x, posInf => x
  | fin p, fin q => fin (min p q)

/-- JavaScript `Math.max` on two arguments. -/
def jsMax (a b : JSNum) : JSNum :=
  match a, b with
  | nan, _ => nan
  | undef, _ => nan
  | _, nan => nan
  | _, undef => nan
  | posInf, _ => posInf
  | _, posInf => posInf
  | negInf, x => x
  | x, negInf => x
  | fin p, fin q => fin (max p q)

/-- JavaScript `a + b`. -/
def jsAdd (a b : JSNum) : JSNum :=
  match a, b with
  | nan, _ => nan
  | undef, _ => nan
  | _, nan => nan
  | _, undef => nan
  | posInf, negInf => nan
  | negInf, posInf => nan
  | posInf, _ => posInf
  | _, posInf => posInf
  | negInf, _ => negInf
  | _, negInf => negInf
  | fin p, fin q => fin (p + q)

/-- JavaScript `a * b`. -/
def jsMul (a b : JSNum) : JSNum :=
  match a, b with
  | nan, _ => nan
  | undef, _ => nan
  | _, nan => nan
  | _, undef => nan
  | posInf, posInf => posInf
  | posInf, negInf => negInf
  | negInf, posInf => negInf
  | negInf, negInf => posInf
  | posInf, fin q => if 0 < q then posInf else if q < 0 then negInf else nan
  | fin q, posInf => if 0 < q then posInf else if q < 0 then negInf else nan
  | negInf, fin q => if 0 < q then negInf else if q < 0 then posInf else nan
  | fin q, negInf => if 0 < q then negInf else if q < 0 then posInf else nan
  | fin p, fin q => fin (p * q)

/-- JavaScript `Math.round`: round half toward positive infinity. -/
def jsRound : JSNum → JSNum
  | nan => nan
  | undef => nan
  | posInf => posInf
  | negInf => negInf
  | fin q => fin ((⌊q + 1/2⌋ : ℤ) : ℚ)

/-- Decimal digits of the fraction `r / d` (with `0 ≤ r < d`), at most
`fuel` of them, by long division on naturals.  On every value the
message templates ever render the expansion terminates well inside the
fuel. -/
def fracDigits : Nat → Nat → Nat → String
  | 0, _, _ => ""
  | fuel + 1, r, d =>
      if r = 0 then ""
      else toString (r * 10 / d) ++ fracDigits fuel (r * 10 % d) d

/-- Decimal rendering of a rational, as JavaScript string interpolation
renders the numbers appearing in the validation messages (integers, and
the constant `1.5`; both classes are rendered exactly as JavaScript
does). -/
def qToStr (q : ℚ) : String :=
  (if q < 0 then "-" else "") ++
    toString (q.num.natAbs / q.den) ++
    (if q.num.natAbs % q.den = 0 then ""
     else "." ++ fracDigits 20 (q.num.natAbs % q.den) q.den)

/-- JavaScript string interpolation of a numeric value. -/
def jsNumToStr : JSNum → String
  | JSNum.nan => "NaN"
  | JSNum.posInf => "Infinity"
  | JSNum.negInf => "-Infinity"
  | JSNum.undef => "undefined"
  | JSNum.fin q => qToStr q

/-- `DistanceSettings` of the multi-field variant (`types/settings`,
centimeter version): `minDistance`, `maxDistance`, `safeDistance`, in
that declaration order.  Each field holds the JavaScript value stored
under that property; `JSNum.undef` models a property absent from the
object. -/
structure DistanceSettings where
  minDistance : JSNum
  maxDistance : JSNum
  safeDistance : JSNum
deriving DecidableEq, Repr

/-- The constraint record of the multi-field variant.  The source fields
`MIN_SAFE_RATIO` and `MAX_SAFE_RATIO` are named `MIN_SAFE_FACTOR` and
`MAX_SAFE_FACTOR` here. -/
structure DistanceConstraintsT where
  MIN_ALLOWED : ℚ
  MAX_ALLOWED : ℚ
  MIN_SAFE_FACTOR : ℚ
  MAX_SAFE_FACTOR : ℚ
deriving DecidableEq, Repr

/-- `DISTANCE_CONSTRAINTS` of the multi-field centimeter variant:
`{ MIN_ALLOWED: 5, MAX_ALLOWED: 300, MIN_SAFE_RATIO: 1.5,
MAX_SAFE_RATIO: 0.8 }`. -/
def DISTANCE_CONSTRAINTS : DistanceConstraintsT :=
  { MIN_ALLOWED := 5, MAX_ALLOWED := 300,
    MIN_SAFE_FACTOR := 3/2, MAX_SAFE_FACTOR := 4/5 }

/-- `DEFAULT_DISTANCE_SETTINGS` of the multi-field centimeter variant:
`{ minDistance: 15, maxDistance: 100, safeDistance: 30 }`. -/
def DEFAULT_DISTANCE_SETTINGS : DistanceSettings :=
  { minDistance := JSNum.fin 15, maxDistance := JSNum.fin 100,
    safeDistance := JSNum.fin 30 }

/-- `ValidationResult`: `{ isValid: boolean, errors: string[] }`. -/
structure ValidationResult where
  isValid : Bool
  errors : List String
deriving DecidableEq, Repr

/-- The template `Jarak minimum harus antara ...cm - ...cm`. -/
def minRangeMsg (lo hi : ℚ) : String :=
  "Jarak minimum harus antara " ++ qToStr lo ++ "cm - " ++ qToStr hi ++ "cm"

/-- The template `Jarak aman harus antara ...cm - ...cm`. -/
def safeRangeMsg (lo hi : ℚ) : String :=
  "Jarak aman harus antara " ++ qToStr lo ++ "cm - " ++ qToStr hi ++ "cm"

/-- The fixed message `Jarak minimum harus lebih kecil dari jarak aman`. -/
def minLtSafeMsg : String := "Jarak minimum harus lebih kecil dari jarak aman"

/-- The template
`Jarak aman harus minimal ...x jarak minimum (Math.round(min*ratio)cm)`. -/
def ratioMsg (factor : ℚ) (minDistance : JSNum) : String :=
  "Jarak aman harus minimal " ++ qToStr factor ++ "x jarak minimum (" ++
    jsNumToStr (jsRound (jsMul minDistance (JSNum.fin factor))) ++ "cm)"

/-- `validateDistanceSettings` of the multi-field variant
(`utils/distanceValidation`): absolute-range checks on `minDistance`
and `safeDistance`, the strict relation `minDistance < safeDistance`,
and the safety-ratio check, appending one message per failed check in
source order; `maxDistance` is never read.  `isValid` is
`errors.length === 0`. -/
def validateDistanceSettings (settings : DistanceSettings) : ValidationResult :=
  let minDistance := settings.minDistance
  let safeDistance := settings.safeDistance
  let c := DISTANCE_CONSTRAINTS
  let errors : List String :=
    (if JSNum.lt minDistance (JSNum.fin c.MIN_ALLOWED) ||
        JSNum.gt minDistance (JSNum.fin c.MAX_ALLOWED) then
      [minRangeMsg c.MIN_ALLOWED c.MAX_ALLOWED] else []) ++
    (if JSNum.lt safeDistance (JSNum.fin c.MIN_ALLOWED) ||
        JSNum.gt safeDistance (JSNum.fin c.MAX_ALLOWED) then
      [safeRangeMsg c.MIN_ALLOWED c.MAX_ALLOWED] else []) ++
    (if JSNum.le safeDistance minDistance then [minLtSafeMsg] else []) ++
    (if JSNum.lt safeDistance (jsMul minDistance (JSNum.fin c.MIN_SAFE_FACTOR)) then
      [ratioMsg c.MIN_SAFE_FACTOR minDistance] else [])
  { isValid := errors.length == 0, errors := errors }

/-- `sanitizeDistanceValue`:
`Math.max(MIN_ALLOWED, Math.min(MAX_ALLOWED, value))`. -/
def sanitizeDistanceValue (value : JSNum) : JSNum :=
  jsMax (JSNum.fin DISTANCE_CONSTRAINTS.MIN_ALLOWED)
    (jsMin (JSNum.fin DISTANCE_CONSTRAINTS.MAX_ALLOWED) value)

/-- `autoCorrectSettings` of the multi-field variant: sanitizes
`minDistance` and `safeDistance`, then, when `safeDistance <=
minDistance`, forces `safeDistance = minDistance + 10`.  The source
returns the object literal `{ minDistance, safeDistance }`, so the
returned object has no `maxDistance` property: reading it yields
`undefined`, which the embedding records as `JSNum.undef`. -/
def autoCorrectSettings (settings : DistanceSettings) : DistanceSettings :=
  let minDistance := sanitizeDistanceValue settings.minDistance
  let safeDistance0 := sanitizeDistanceValue settings.safeDistance
  let safeDistance :=
    if JSNum.le safeDistance0 minDistance then
      jsAdd minDistance (JSNum.fin 10)
    else safeDistance0
  { minDistance := minDistance, maxDistance := JSNum.undef,
    safeDistance := safeDistance }

namespace Single

/-- `DistanceSettings` of the single-field (simplified) variant:
only `minDistance`. -/
structure DistanceSettings where
  minDistance : JSNum
deriving DecidableEq, Repr

/-- The simplified constraint record: only the absolute bounds. -/
structure DistanceConstraintsT where
  MIN_ALLOWED : ℚ
  MAX_ALLOWED : ℚ
deriving DecidableEq, Repr

/-- `DISTANCE_CONSTRAINTS` of the single-field variant:
`{ MIN_ALLOWED: 5, MAX_ALLOWED: 300 }`. -/
def DISTANCE_CONSTRAINTS : DistanceConstraintsT :=
  { MIN_ALLOWED := 5, MAX_ALLOWED := 300 }

/-- `validateDistanceSettings` of the single-field variant: only the
absolute-range check on `minDistance`. -/
def validateDistanceSettings (settings : DistanceSettings) : ValidationResult :=
  let minDistance := settings.minDistance
  let c := DISTANCE_CONSTRAINTS
  let errors : List String :=
    if JSNum.lt minDistance (JSNum.fin c.MIN_ALLOWED) ||
        JSNum.gt minDistance (JSNum.fin c.MAX_ALLOWED) then
      [minRangeMsg c.MIN_ALLOWED c.MAX_ALLOWED]
    else []
  { isValid := errors.length == 0, errors := errors }

end Single

/-- The state the `useDistanceSettings` hook keeps: the working value,
the persisted value, the error list and the validity flag of the last
validation. -/
structure HookState where
  settings : DistanceSettings
  savedSettings : DistanceSettings
  validationErrors : List String
  isValid : Bool
deriving DecidableEq, Repr

/-- `saveSettings` of `hooks/useDistanceSettings`: rejected (state
unchanged, no effect) when the `isValid` flag is unset; otherwise the
working value is auto-corrected, stored as both working and persisted
value, and the corrected value is emitted (the `localStorage` write and
the `onSettingsChange` callback), returned here as the `Option`
component. -/
def saveSettings (st : HookState) : HookState × Option DistanceSettings :=
  if !st.isValid then (st, none)
  else
    let correctedSettings := autoCorrectSettings st.settings
    ({ st with settings := correctedSettings,
               savedSettings := correctedSettings },
     some correctedSettings)

/-- `hasUnsavedChanges` of the hook: the JSON encodings differ, i.e.
the working value differs from the persisted one. -/
def hasUnsavedChanges (st : HookState) : Bool :=
  st.settings != st.savedSettings

/-! ## Helper lemmas -/

lemma sanitize_fin (q : ℚ) :
    sanitizeDistanceValue (JSNum.fin q) = JSNum.fin (max 5 (min 300 q)) := rfl

lemma sanitize_nan : sanitizeDistanceValue JSNum.nan = JSNum.nan := rfl

lemma le_fin_fin (a b : ℚ) :
    JSNum.le (JSNum.fin a) (JSNum.fin b) = decide (a ≤ b) := rfl

lemma le_fin_nan (a : ℚ) : JSNum.le (JSNum.fin a) JSNum.nan = false := rfl

lemma jsAdd_fin_fin (a b : ℚ) :
    jsAdd (JSNum.fin a) (JSNum.fin b) = JSNum.fin (a + b) := rfl

lemma clamp_id (a : ℚ) (h1 : 5 ≤ a) (h2 : a ≤ 300) :
    max 5 (min 300 a) = a := by
  rw [min_eq_right h2, max_eq_right h1]

/-- The sanitizer on both-finite inputs, written out through the
`Math.max`/`Math.min` chain. -/
lemma autoCorrect_fin_fin (p q : ℚ) (M : JSNum) :
    autoCorrectSettings ⟨JSNum.fin p, M, JSNum.fin q⟩ =
      ⟨JSNum.fin (max 5 (min 300 p)), JSNum.undef,
       if max 5 (min 300 q) ≤ max 5 (min 300 p)
       then JSNum.fin (max 5 (min 300 p) + 10)
       else JSNum.fin (max 5 (min 300 q))⟩ := by
  simp only [autoCorrectSettings, sanitize_fin, le_fin_fin, jsAdd_fin_fin,
    decide_eq_true_eq]

/-- On any actual number (finite or infinite, not `NaN`, not absent)
the sanitizer lands on a finite value inside `[5, 300]`. -/
lemma sanitize_isNum (x : JSNum) (h : x.isNum = true) :
    ∃ a, sanitizeDistanceValue x = JSNum.fin a ∧ 5 ≤ a ∧ a ≤ 300 := by
  cases x with
  | nan => simp [JSNum.isNum] at h
  | undef => simp [JSNum.isNum] at h
  | posInf =>
      refine ⟨300, ?_, by norm_num, by norm_num⟩
      show JSNum.fin (max 5 300) = JSNum.fin 300
      norm_num
  | negInf =>
      exact ⟨5, rfl, by norm_num, by norm_num⟩
  | fin q =>
      exact ⟨max 5 (min 300 q), sanitize_fin q, le_max_left _ _,
        max_le (by norm_num) (min_le_left _ _)⟩

/-- The sanitizer never yields the absent-property value. -/
lemma sanitize_ne_undef (x : JSNum) : sanitizeDistanceValue x ≠ JSNum.undef := by
  cases x <;> simp [sanitizeDistanceValue, jsMin, jsMax]

lemma jsAdd_fin_ne_undef (x : JSNum) (b : ℚ) :
    jsAdd x (JSNum.fin b) ≠ JSNum.undef := by
  cases x <;> simp [jsAdd]

/-- Multi-field validation at Scenario C's raw input, fully evaluated:
both the ordering message and the ratio message fire. -/
lemma validate_scenarioC_raw :
    validateDistanceSettings ⟨JSNum.fin 30, JSNum.fin 100, JSNum.fin 20⟩ =
      ⟨false, [minLtSafeMsg, ratioMsg (3/2) (JSNum.fin 30)]⟩ := by
  simp only [validateDistanceSettings, DISTANCE_CONSTRAINTS, JSNum.lt, JSNum.gt,
    JSNum.le, jsMul]
  norm_num

/-- Auto-correction at Scenario C's raw input, fully evaluated:
`safeDistance` is repaired to `30 + 10 = 40` and `maxDistance` is
absent from the returned object. -/
lemma autoCorrect_scenarioC_raw :
    autoCorrectSettings ⟨JSNum.fin 30, JSNum.fin 100, JSNum.fin 20⟩ =
      ⟨JSNum.fin 30, JSNum.undef, JSNum.fin 40⟩ := by
  simp only [autoCorrectSettings, sanitizeDistanceValue, jsMin, jsMax, jsAdd,
    JSNum.le, DISTANCE_CONSTRAINTS]
  norm_num

/-- Multi-field validation at Scenario C's corrected value, fully
evaluated: the ratio check `40 < 30 * 1.5 = 45` still fires. -/
lemma validate_scenarioC_corrected :
    validateDistanceSettings ⟨JSNum.fin 30, JSNum.undef, JSNum.fin 40⟩ =
      ⟨false, [ratioMsg (3/2) (JSNum.fin 30)]⟩ := by
  simp only [validateDistanceSettings, DISTANCE_CONSTRAINTS, JSNum.lt, JSNum.gt,
    JSNum.le, jsMul]
  norm_num

/-! ## Claim theorems -/

/-- Claim C1, counterexample: `autoCorrectSettings` is NOT idempotent
for every finite input.  At `{minDistance: 295, safeDistance: 5}` the
first pass repairs `safeDistance` to `305`, above `MAX_ALLOWED`; the
second pass clamps it to `300`, so the two results differ. -/
theorem autoCorrectSettings_not_idempotent :
    autoCorrectSettings
        (autoCorrectSettings ⟨JSNum.fin 295, JSNum.fin 100, JSNum.fin 5⟩) ≠
      autoCorrectSettings ⟨JSNum.fin 295, JSNum.fin 100, JSNum.fin 5⟩ := by
  simp only [autoCorrectSettings, sanitizeDistanceValue, jsMin, jsMax, jsAdd,
    JSNum.le, DISTANCE_CONSTRAINTS]
  norm_num

/-- Claim C1, amended: `autoCorrectSettings` is idempotent on every
settings value with finite `minDistance` and `safeDistance` provided
the `+10` repair cannot overshoot `MAX_ALLOWED`: either the sanitized
`minDistance` is at most `MAX_ALLOWED - 10`, or no repair is needed
because the sanitized `safeDistance` already exceeds the sanitized
`minDistance` (`max 5 (min 300 x)` is exactly `sanitizeDistanceValue`
on the finite value `x`, see `sanitize_fin`). -/
theorem autoCorrectSettings_idem (s : DistanceSettings) (p q : ℚ)
    (hm : s.minDistance = JSNum.fin p) (hs : s.safeDistance = JSNum.fin q)
    (h : max 5 (min 300 p) + 10 ≤ 300 ∨ max 5 (min 300 p) < max 5 (min 300 q)) :
    autoCorrectSettings (autoCorrectSettings s) = autoCorrectSettings s := by
  obtain ⟨mval, Mval, sval⟩ := s
  cases hm; cases hs
  have hm5 : (5:ℚ) ≤ max 5 (min 300 p) := le_max_left _ _
  have hm300 : max 5 (min 300 p) ≤ 300 := max_le (by norm_num) (min_le_left _ _)
  have hs5 : (5:ℚ) ≤ max 5 (min 300 q) := le_max_left _ _
  have hs300 : max 5 (min 300 q) ≤ 300 := max_le (by norm_num) (min_le_left _ _)
  rw [autoCorrect_fin_fin]
  by_cases hc : max 5 (min 300 q) ≤ max 5 (min 300 p)
  · have hrange : max 5 (min 300 p) + 10 ≤ 300 :=
      h.resolve_right (fun hlt => absurd hc (not_le.mpr hlt))
    rw [if_pos hc, autoCorrect_fin_fin,
      clamp_id _ hm5 hm300, clamp_id _ (by linarith) hrange,
      if_neg (by intro hba; linarith)]
  · rw [if_neg hc, autoCorrect_fin_fin,
      clamp_id _ hm5 hm300, clamp_id _ hs5 hs300, if_neg hc]

/-- Witness for `autoCorrectSettings_idem` at
`{minDistance: 30, safeDistance: 20}`. -/
theorem autoCorrectSettings_idem_witness :
    autoCorrectSettings
        (autoCorrectSettings ⟨JSNum.fin 30, JSNum.fin 100, JSNum.fin 20⟩) =
      autoCorrectSettings ⟨JSNum.fin 30, JSNum.fin 100, JSNum.fin 20⟩ :=
  autoCorrectSettings_idem _ 30 20 rfl rfl (Or.inl (by norm_num))

/-- Claim C2, counterexample: at `{minDistance: 30, safeDistance: 20,
maxDistance: 100}` with `MIN_SAFE_RATIO = 1.5`, the auto-corrected
value is not `{minDistance: 30, safeDistance: 40, maxDistance: 100}`
(the returned object has no `maxDistance` property), and validating
the auto-corrected value yields `isValid = false`, not `true`
(`40 < 30 * 1.5 = 45` fails the ratio check). -/
theorem scenarioC_claim_false :
    autoCorrectSettings ⟨JSNum.fin 30, JSNum.fin 100, JSNum.fin 20⟩ ≠
      ⟨JSNum.fin 30, JSNum.fin 100, JSNum.fin 40⟩ ∧
    (validateDistanceSettings
        (autoCorrectSettings ⟨JSNum.fin 30, JSNum.fin 100, JSNum.fin 20⟩)).isValid
      ≠ true := by
  rw [autoCorrect_scenarioC_raw]
  refine ⟨?_, ?_⟩
  · intro hEq
    exact absurd (congrArg DistanceSettings.maxDistance hEq) (by simp)
  · rw [validate_scenarioC_corrected]
    simp

/-- Claim C2, amended: at `{minDistance: 30, safeDistance: 20,
maxDistance: 100}` validation fails and its error list contains the
"minimum must be less than safe" message; auto-correction yields
`minDistance = 30`, `safeDistance = 40` with `maxDistance` absent; and
validating that corrected value still returns `isValid = false`,
because `40` is below `30 * MIN_SAFE_RATIO = 45`. -/
theorem scenarioC_amended :
    (validateDistanceSettings ⟨JSNum.fin 30, JSNum.fin 100, JSNum.fin 20⟩).isValid
        = false ∧
    minLtSafeMsg ∈
      (validateDistanceSettings ⟨JSNum.fin 30, JSNum.fin 100, JSNum.fin 20⟩).errors ∧
    autoCorrectSettings ⟨JSNum.fin 30, JSNum.fin 100, JSNum.fin 20⟩ =
      ⟨JSNum.fin 30, JSNum.undef, JSNum.fin 40⟩ ∧
    (validateDistanceSettings
        (autoCorrectSettings ⟨JSNum.fin 30, JSNum.fin 100, JSNum.fin 20⟩)).isValid
      = false ∧
    ratioMsg (3/2) (JSNum.fin 30) ∈
      (validateDistanceSettings
        (autoCorrectSettings ⟨JSNum.fin 30, JSNum.fin 100, JSNum.fin 20⟩)).errors := by
  rw [validate_scenarioC_raw, autoCorrect_scenarioC_raw, validate_scenarioC_corrected]
  simp

/-- Claim C3, counterexample: for `minDistance = NaN` and a finite
`safeDistance`, the repair comparison `safeDistance <= NaN` is false,
the branch is skipped, and the result does not satisfy
`safeDistance > minDistance` (every comparison against `NaN` is
false). -/
theorem autoCorrect_gt_fails_on_nan :
    JSNum.gt
        (autoCorrectSettings ⟨JSNum.nan, JSNum.fin 100, JSNum.fin 50⟩).safeDistance
        (autoCorrectSettings ⟨JSNum.nan, JSNum.fin 100, JSNum.fin 50⟩).minDistance
      = false := rfl

/-- Claim C3, amended: after `autoCorrectSettings`, `safeDistance >
minDistance` holds whenever `minDistance` and `safeDistance` are
actual numbers (finite or infinite) rather than `NaN` or an absent
property — infinite inputs are clamped to the finite bounds, so only
`NaN` escapes the repair. -/
theorem autoCorrect_safe_gt_min (s : DistanceSettings)
    (hm : s.minDistance.isNum = true) (hs : s.safeDistance.isNum = true) :
    JSNum.gt (autoCorrectSettings s).safeDistance
      (autoCorrectSettings s).minDistance = true := by
  obtain ⟨a, ha, ha5, ha300⟩ := sanitize_isNum _ hm
  obtain ⟨b, hb, hb5, hb300⟩ := sanitize_isNum _ hs
  simp only [autoCorrectSettings, ha, hb, le_fin_fin, jsAdd_fin_fin,
    decide_eq_true_eq]
  by_cases hc : b ≤ a
  · rw [if_pos hc]
    simp only [JSNum.gt, JSNum.lt, decide_eq_true_eq]
    linarith
  · rw [if_neg hc]
    simp only [JSNum.gt, JSNum.lt, decide_eq_true_eq]
    linarith [not_le.mp hc]

/-- Witness for `autoCorrect_safe_gt_min` at
`{minDistance: 30, safeDistance: 20}`. -/
theorem autoCorrect_safe_gt_min_witness :
    JSNum.gt
        (autoCorrectSettings ⟨JSNum.fin 30, JSNum.fin 100, JSNum.fin 20⟩).safeDistance
        (autoCorrectSettings ⟨JSNum.fin 30, JSNum.fin 100, JSNum.fin 20⟩).minDistance
      = true :=
  autoCorrect_safe_gt_min _ rfl rfl

/-- Claim C4 (code bug): for every input, the value returned by the
multi-field `autoCorrectSettings` carries sanitized numeric
`minDistance` and `safeDistance` fields but NO `maxDistance` property
(reading it yields `undefined`), although the declared return type
`DistanceSettings` requires all three fields.  Evaluated here at the
failing input `{minDistance: 30, safeDistance: 20, maxDistance: 100}`
and proved for every input. -/
theorem autoCorrect_drops_maxDistance :
    (autoCorrectSettings ⟨JSNum.fin 30, JSNum.fin 100, JSNum.fin 20⟩).maxDistance
        = JSNum.undef ∧
    (∀ s : DistanceSettings,
      (autoCorrectSettings s).maxDistance = JSNum.undef ∧
      (autoCorrectSettings s).minDistance ≠ JSNum.undef ∧
      (autoCorrectSettings s).safeDistance ≠ JSNum.undef) := by
  refine ⟨rfl, fun s => ⟨rfl, sanitize_ne_undef _, ?_⟩⟩
  show (if JSNum.le (sanitizeDistanceValue s.safeDistance)
          (sanitizeDistanceValue s.minDistance) = true
        then jsAdd (sanitizeDistanceValue s.minDistance) (JSNum.fin 10)
        else sanitizeDistanceValue s.safeDistance) ≠ JSNum.undef
  split
  · exact jsAdd_fin_ne_undef _ _
  · exact sanitize_ne_undef _

/-- Witness for `autoCorrect_drops_maxDistance` at the default
settings value. -/
theorem autoCorrect_drops_maxDistance_witness :
    (autoCorrectSettings DEFAULT_DISTANCE_SETTINGS).maxDistance = JSNum.undef ∧
    (autoCorrectSettings DEFAULT_DISTANCE_SETTINGS).minDistance ≠ JSNum.undef ∧
    (autoCorrectSettings DEFAULT_DISTANCE_SETTINGS).safeDistance ≠ JSNum.undef :=
  autoCorrect_drops_maxDistance.2 DEFAULT_DISTANCE_SETTINGS

/-- Claim C5, counterexample: the save operation has NO no-op guard.
In a state whose working value equals the persisted value (and whose
validity flag is set), `saveSettings` still performs its side effect —
it emits the corrected value to `localStorage` and the change
callback — instead of being rejected. -/
theorem saveSettings_no_noop_guard :
    (⟨DEFAULT_DISTANCE_SETTINGS, DEFAULT_DISTANCE_SETTINGS, [], true⟩
        : HookState).settings =
      (⟨DEFAULT_DISTANCE_SETTINGS, DEFAULT_DISTANCE_SETTINGS, [], true⟩
        : HookState).savedSettings ∧
    (saveSettings
        ⟨DEFAULT_DISTANCE_SETTINGS, DEFAULT_DISTANCE_SETTINGS, [], true⟩).2
      ≠ none := by
  exact ⟨rfl, by simp [saveSettings]⟩

/-- Claim C5, amended: `saveSettings` is guarded only by the `isValid`
flag (the result of the last validation of the working value).  When
the flag is unset the call is rejected with no state change and no
side effect.  When it is set the working value is passed through
`autoCorrectSettings`, stored as both the working and the persisted
value, and emitted to persistence and the change callback — whether or
not the working value differs from the persisted one (there is no
no-op guard). -/
theorem saveSettings_spec (st : HookState) :
    saveSettings st =
      if st.isValid then
        ({ settings := autoCorrectSettings st.settings,
           savedSettings := autoCorrectSettings st.settings,
           validationErrors := st.validationErrors,
           isValid := st.isValid },
         some (autoCorrectSettings st.settings))
      else (st, none) := by
  obtain ⟨a, b, c, v⟩ := st
  cases v <;> simp [saveSettings]

/-- Witness for `saveSettings_spec` at a state with the validity flag
unset: the save is rejected and nothing is emitted. -/
theorem saveSettings_spec_witness :
    saveSettings ⟨DEFAULT_DISTANCE_SETTINGS, DEFAULT_DISTANCE_SETTINGS, [], false⟩ =
      (⟨DEFAULT_DISTANCE_SETTINGS, DEFAULT_DISTANCE_SETTINGS, [], false⟩, none) := by
  have h := saveSettings_spec
    ⟨DEFAULT_DISTANCE_SETTINGS, DEFAULT_DISTANCE_SETTINGS, [], false⟩
  simpa using h

/-- Claim C6: on finite input the sanitizer clamps to the nearer bound
outside `[MIN_ALLOWED, MAX_ALLOWED] = [5, 300]` and is the identity
inside it. -/
theorem sanitizeDistanceValue_spec (q : ℚ) :
    (q < 5 → sanitizeDistanceValue (JSNum.fin q) = JSNum.fin 5 ∧
      |q - 5| ≤ |q - 300|) ∧
    (300 < q → sanitizeDistanceValue (JSNum.fin q) = JSNum.fin 300 ∧
      |q - 300| ≤ |q - 5|) ∧
    (5 ≤ q → q ≤ 300 → sanitizeDistanceValue (JSNum.fin q) = JSNum.fin q) := by
  refine ⟨fun h => ⟨?_, ?_⟩, fun h => ⟨?_, ?_⟩, fun h1 h2 => ?_⟩
  · rw [sanitize_fin, min_eq_right (by linarith), max_eq_left (by linarith)]
  · rw [abs_of_nonpos (by linarith), abs_of_nonpos (by linarith)]
    linarith
  · rw [sanitize_fin, min_eq_left (by linarith), max_eq_right (by norm_num)]
  · rw [abs_of_nonneg (by linarith), abs_of_nonneg (by linarith)]
    linarith
  · rw [sanitize_fin, clamp_id q h1 h2]

/-- Witness for `sanitizeDistanceValue_spec` at `400` (Scenario D),
`2` and `15`. -/
theorem sanitizeDistanceValue_spec_witness :
    sanitizeDistanceValue (JSNum.fin 400) = JSNum.fin 300 ∧
    sanitizeDistanceValue (JSNum.fin 2) = JSNum.fin 5 ∧
    sanitizeDistanceValue (JSNum.fin 15) = JSNum.fin 15 :=
  ⟨((sanitizeDistanceValue_spec 400).2.1 (by norm_num)).1,
   ((sanitizeDistanceValue_spec 2).1 (by norm_num)).1,
   (sanitizeDistanceValue_spec 15).2.2 (by norm_num) (by norm_num)⟩

/-- Claim C7: Scenarios A and B of the single-field variant.
`{minDistance: 15}` validates as `{isValid: true, errors: []}` and
`{minDistance: 1}` as `{isValid: false, errors: ["Jarak minimum harus
antara 5cm - 300cm"]}`, with exactly that one message. -/
theorem single_scenarios_A_B :
    Single.validateDistanceSettings ⟨JSNum.fin 15⟩ = ⟨true, []⟩ ∧
    Single.validateDistanceSettings ⟨JSNum.fin 1⟩ =
      ⟨false, ["Jarak minimum harus antara 5cm - 300cm"]⟩ :=
  ⟨rfl, rfl⟩

/-- Claim C8: both validators are total pure functions of their
argument by construction (they are Lean functions on the full `JSNum`
domain, including `NaN`, so no input throws), and the returned
`isValid` is true exactly when the returned error list is empty. -/
theorem validate_isValid_iff_no_errors
    (s : DistanceSettings) (t : Single.DistanceSettings) :
    ((validateDistanceSettings s).isValid = true ↔
      (validateDistanceSettings s).errors = []) ∧
    ((Single.validateDistanceSettings t).isValid = true ↔
      (Single.validateDistanceSettings t).errors = []) := by
  constructor
  · simp only [validateDistanceSettings]
    simp [List.length_eq_zero]
  · simp only [Single.validateDistanceSettings]
    simp [List.length_eq_zero]

/-- Witness for `validate_isValid_iff_no_errors` at the default
settings and the single-field value `{minDistance: 15}`. -/
theorem validate_isValid_iff_no_errors_witness :
    ((validateDistanceSettings DEFAULT_DISTANCE_SETTINGS).isValid = true ↔
      (validateDistanceSettings DEFAULT_DISTANCE_SETTINGS).errors = []) ∧
    ((Single.validateDistanceSettings ⟨JSNum.fin 15⟩).isValid = true ↔
      (Single.validateDistanceSettings ⟨JSNum.fin 15⟩).errors = []) :=
  validate_isValid_iff_no_errors DEFAULT_DISTANCE_SETTINGS ⟨JSNum.fin 15⟩

/-- Claim C9: `sanitizeDistanceValue(NaN) = NaN` (NaN propagates
through the `Math.max`/`Math.min` chain), `autoCorrectSettings` keeps
`NaN` in both fields when both are `NaN`, and for a `NaN` `minDistance`
with a finite `safeDistance` the repair branch is not taken
(`safeDistance <= NaN` is false), so the result's `safeDistance` is
just its sanitized value and `minDistance` stays `NaN`. -/
theorem nan_propagates (s s2 : DistanceSettings) (q : ℚ)
    (hm : s.minDistance = JSNum.nan) (hs : s.safeDistance = JSNum.fin q)
    (hm2 : s2.minDistance = JSNum.nan) (hs2 : s2.safeDistance = JSNum.nan) :
    sanitizeDistanceValue JSNum.nan = JSNum.nan ∧
    (autoCorrectSettings s2).minDistance = JSNum.nan ∧
    (autoCorrectSettings s2).safeDistance = JSNum.nan ∧
    (autoCorrectSettings s).minDistance = JSNum.nan ∧
    (autoCorrectSettings s).safeDistance = sanitizeDistanceValue s.safeDistance := by
  refine ⟨rfl, ?_, ?_, ?_, ?_⟩
  · simp only [autoCorrectSettings, hm2, sanitize_nan]
  · simp only [autoCorrectSettings, hm2, hs2, sanitize_nan, JSNum.le]
    rfl
  · simp only [autoCorrectSettings, hm, sanitize_nan]
  · simp only [autoCorrectSettings, hm, hs, sanitize_nan, sanitize_fin, le_fin_nan]
    rfl

/-- Witness for `nan_propagates` at `{minDistance: NaN, safeDistance:
50}` and `{minDistance: NaN, safeDistance: NaN}`. -/
theorem nan_propagates_witness :
    sanitizeDistanceValue JSNum.nan = JSNum.nan ∧
    (autoCorrectSettings ⟨JSNum.nan, JSNum.fin 100, JSNum.nan⟩).minDistance
        = JSNum.nan ∧
    (autoCorrectSettings ⟨JSNum.nan, JSNum.fin 100, JSNum.nan⟩).safeDistance
        = JSNum.nan ∧
    (autoCorrectSettings ⟨JSNum.nan, JSNum.fin 100, JSNum.fin 50⟩).minDistance
        = JSNum.nan ∧
    (autoCorrectSettings ⟨JSNum.nan, JSNum.fin 100, JSNum.fin 50⟩).safeDistance
        = sanitizeDistanceValue
            (DistanceSettings.safeDistance ⟨JSNum.nan, JSNum.fin 100, JSNum.fin 50⟩) :=
  nan_propagates ⟨JSNum.nan, JSNum.fin 100, JSNum.fin 50⟩
    ⟨JSNum.nan, JSNum.fin 100, JSNum.nan⟩ 50 rfl rfl rfl rfl

/-- Claim C10: the multi-field validator never reads `maxDistance` —
two settings agreeing on `minDistance` and `safeDistance` always get
identical validation results, however their `maxDistance` fields
differ; in particular the value `{minDistance: 15, safeDistance: 30,
maxDistance: 1}`, whose `maxDistance` lies below its `safeDistance`,
is reported valid. -/
theorem validate_ignores_maxDistance (s t : DistanceSettings)
    (h1 : s.minDistance = t.minDistance) (h2 : s.safeDistance = t.safeDistance) :
    validateDistanceSettings s = validateDistanceSettings t ∧
    (validateDistanceSettings ⟨JSNum.fin 15, JSNum.fin 1, JSNum.fin 30⟩).isValid
      = true := by
  constructor
  · simp only [validateDistanceSettings, h1, h2]
  · simp only [validateDistanceSettings, DISTANCE_CONSTRAINTS, JSNum.lt,
      JSNum.gt, JSNum.le, jsMul]
    norm_num

/-- Witness for `validate_ignores_maxDistance`: a `NaN` `maxDistance`
versus one above `MAX_ALLOWED`. -/
theorem validate_ignores_maxDistance_witness :
    validateDistanceSettings ⟨JSNum.fin 15, JSNum.nan, JSNum.fin 30⟩ =
      validateDistanceSettings ⟨JSNum.fin 15, JSNum.fin 400, JSNum.fin 30⟩ ∧
    (validateDistanceSettings ⟨JSNum.fin 15, JSNum.fin 1, JSNum.fin 30⟩).isValid
      = true :=
  validate_ignores_maxDistance ⟨JSNum.fin 15, JSNum.nan, JSNum.fin 30⟩
    ⟨JSNum.fin 15, JSNum.fin 400, JSNum.fin 30⟩ rfl rfl

end RCCar
